import Mathlib

/-!
Verification of the Auto Run duplication engine of the Maestro repository.

The definitions below are a shallow embedding of
`src/shared/autoRunDuplication.ts` (types, `evaluateDuplicationTriggers`,
`createDefaultTrigger`) and of `src/renderer/services/autoRunDuplication.ts`
(the `AutoRunDuplicationService` class).  JavaScript numbers are modelled as
rationals (`ℚ`), optional fields as `Option`, fallible asynchronous callbacks
as `Except String`-valued functions, and the `Map` used for the instance
registry as an association list with JavaScript `Map` update semantics
(replace in place when the key exists, append otherwise).  Identifier
generation (`generateId`) and the clock (`Date.now`) are passed in as
explicit parameters, since their values never influence control flow.
-/

namespace Maestro

/-- Trigger types for Auto Run agent duplication
    (`DuplicationTriggerType` in `src/shared/autoRunDuplication.ts`). -/
inductive DuplicationTriggerType where
  | task_count
  | time_elapsed
  | context_threshold
  | cost_threshold
  | document_count
  | loop_iteration
  | manual
deriving DecidableEq, Repr

/-- Configuration for a single duplication trigger (`DuplicationTrigger`). -/
structure DuplicationTrigger where
  id : String
  type : DuplicationTriggerType
  enabled : Bool
  taskCountThreshold : Option ℚ
  timeElapsedMs : Option ℚ
  contextPercentage : Option ℚ
  costThreshold : Option ℚ
  documentCountThreshold : Option ℚ
  loopIteration : Option ℚ
  duplicateCount : Int
  preserveContext : Bool
  preserveAutoRunDocs : Bool
  groupDuplicates : Bool
  customGroupName : Option String
  distributeTasks : Option Bool
  sequentialExecution : Option Bool
  customPromptTemplate : Option String
deriving DecidableEq, Repr

/-- Configuration for Auto Run agent duplication (`AutoRunDuplicationConfig`). -/
structure AutoRunDuplicationConfig where
  enabled : Bool
  triggers : List DuplicationTrigger
  maxDuplicates : Option Nat
  autoCreateGroup : Option Bool
  notifyOnDuplication : Option Bool
deriving DecidableEq, Repr

/-- `DEFAULT_DUPLICATION_CONFIG` from `src/shared/autoRunDuplication.ts`. -/
def DEFAULT_DUPLICATION_CONFIG : AutoRunDuplicationConfig :=
  { enabled := false
    triggers := []
    maxDuplicates := some 5
    autoCreateGroup := some true
    notifyOnDuplication := some true }

/-- The metrics snapshot handed to `evaluateDuplicationTriggers`
    (the anonymous `metrics` parameter type in the source).  The six field
    names are the canonical ones of the source. -/
structure DupMetrics where
  taskCount : Option ℚ
  elapsedTimeMs : Option ℚ
  contextPercentage : Option ℚ
  currentCost : Option ℚ
  documentCount : Option ℚ
  loopIteration : Option ℚ
deriving DecidableEq, Repr

/-- Result of evaluating duplication triggers (`DuplicationTriggerEvaluation`).
    At runtime the `metrics` field, when present, is the very metrics object
    passed in (canonical field names); it is absent on the two early-return
    branches of `evaluateDuplicationTriggers`. -/
structure DuplicationTriggerEvaluation where
  shouldDuplicate : Bool
  triggeredBy : Option DuplicationTrigger
  reason : String
  metrics : Option DupMetrics
deriving DecidableEq, Repr

/-- JavaScript `Math.round(x / 1000)` on a rational: the floor of
    `x/1000 + 1/2`, computed over the numerator and denominator with integer
    floor division (so that it evaluates by kernel reduction). -/
def jsRoundDiv1000 (q : ℚ) : ℤ :=
  Int.fdiv (2 * q.num + 1000 * (q.den : ℤ)) (2000 * (q.den : ℤ))

/-- Left-pad the fractional part for `toFixed4` to four digits. -/
def pad4 (n : Nat) : String :=
  if n < 10 then "000" ++ toString n
  else if n < 100 then "00" ++ toString n
  else if n < 1000 then "0" ++ toString n
  else toString n

/-- JavaScript `Number.prototype.toFixed(4)` on a rational: round
    `x * 10000` to an integer (again over numerator and denominator, with
    integer operations only), then print with four decimal places. -/
def toFixed4 (q : ℚ) : String :=
  let scaled : ℤ :=
    Int.fdiv (2 * (q.num * 10000) + (q.den : ℤ)) (2 * (q.den : ℤ))
  let sign := if scaled < 0 then "-" else ""
  let a := scaled.natAbs
  let intS := toString (a / 10000)
  let fracS := pad4 (a % 10000)
  sign ++ intS ++ "." ++ fracS

/-- The `switch (trigger.type)` body of the evaluation loop in
    `evaluateDuplicationTriggers`: computes the pair
    `(shouldTrigger, reason)` for one trigger.  When the threshold field or
    the metric field is absent the pair stays `(false, "")`, exactly as the
    `let` initialisations in the source. -/
def evalTriggerBody (trigger : DuplicationTrigger) (metrics : DupMetrics) :
    Bool × String :=
  match trigger.type with
  | .task_count =>
    match trigger.taskCountThreshold, metrics.taskCount with
    | some th, some v =>
        let vS := toString v
        let thS := toString th
        (decide (v ≥ th), s!"Task count ({vS}) reached threshold ({thS})")
    | _, _ => (false, "")
  | .time_elapsed =>
    match trigger.timeElapsedMs, metrics.elapsedTimeMs with
    | some th, some v =>
        let vS := toString (jsRoundDiv1000 v)
        let thS := toString (jsRoundDiv1000 th)
        (decide (v ≥ th), s!"Elapsed time ({vS}s) reached threshold ({thS}s)")
    | _, _ => (false, "")
  | .context_threshold =>
    match trigger.contextPercentage, metrics.contextPercentage with
    | some th, some v =>
        let vS := toString v
        let thS := toString th
        (decide (v ≥ th), s!"Context usage ({vS}%) reached threshold ({thS}%)")
    | _, _ => (false, "")
  | .cost_threshold =>
    match trigger.costThreshold, metrics.currentCost with
    | some th, some v =>
        let vS := toFixed4 v
        let thS := toFixed4 th
        (decide (v ≥ th), s!"Cost (${vS}) reached threshold (${thS})")
    | _, _ => (false, "")
  | .document_count =>
    match trigger.documentCountThreshold, metrics.documentCount with
    | some th, some v =>
        let vS := toString v
        let thS := toString th
        (decide (v ≥ th), s!"Document count ({vS}) reached threshold ({thS})")
    | _, _ => (false, "")
  | .loop_iteration =>
    match trigger.loopIteration, metrics.loopIteration with
    | some th, some v =>
        let vS := toString v
        let thS := toString th
        (decide (v ≥ th), s!"Loop iteration ({vS}) reached threshold ({thS})")
    | _, _ => (false, "")
  | .manual =>
    -- Manual triggers are handled separately
    (false, "")

/-- The `for (const trigger of config.triggers)` loop of
    `evaluateDuplicationTriggers`: skip disabled triggers, return the first
    trigger whose predicate evaluates to true together with its reason. -/
def runTriggerLoop : List DuplicationTrigger → DupMetrics →
    Option (DuplicationTrigger × String)
  | [], _ => none
  | trigger :: rest, metrics =>
    if trigger.enabled = false then runTriggerLoop rest metrics
    else
      let res := evalTriggerBody trigger metrics
      if res.1 then some (trigger, res.2) else runTriggerLoop rest metrics

/-- `evaluateDuplicationTriggers` from `src/shared/autoRunDuplication.ts`. -/
def evaluateDuplicationTriggers (config : AutoRunDuplicationConfig)
    (metrics : DupMetrics) : DuplicationTriggerEvaluation :=
  if config.enabled = false then
    { shouldDuplicate := false
      triggeredBy := none
      reason := "Auto Run duplication is disabled"
      metrics := none }
  else if config.triggers.length = 0 then
    { shouldDuplicate := false
      triggeredBy := none
      reason := "No duplication triggers configured"
      metrics := none }
  else
    match runTriggerLoop config.triggers metrics with
    | some (t, reason) =>
      { shouldDuplicate := true
        triggeredBy := some t
        reason := reason
        metrics := some metrics }
    | none =>
      { shouldDuplicate := false
        triggeredBy := none
        reason := "No triggers activated"
        metrics := some metrics }

/-- `createDefaultTrigger` from the source; `generateId`-style id generation
    is passed in as the explicit `id` argument. -/
def createDefaultTrigger (id : String) (type : DuplicationTriggerType) :
    DuplicationTrigger :=
  let baseConfig : DuplicationTrigger :=
    { id := id
      type := type
      enabled := true
      taskCountThreshold := none
      timeElapsedMs := none
      contextPercentage := none
      costThreshold := none
      documentCountThreshold := none
      loopIteration := none
      duplicateCount := 1
      preserveContext := true
      preserveAutoRunDocs := true
      groupDuplicates := true
      customGroupName := none
      distributeTasks := none
      sequentialExecution := none
      customPromptTemplate := none }
  match type with
  | .task_count => { baseConfig with taskCountThreshold := some 10 }
  | .time_elapsed =>
    -- 30 minutes, i.e. 30 * 60 * 1000 ms
    { baseConfig with timeElapsedMs := some 1800000 }
  | .context_threshold => { baseConfig with contextPercentage := some 80 }
  | .cost_threshold => { baseConfig with costThreshold := some 5 }
  | .document_count => { baseConfig with documentCountThreshold := some 5 }
  | .loop_iteration => { baseConfig with loopIteration := some 3 }
  | .manual => baseConfig

/-- Specification-side predicate, written from the words of the spec
    (section 4.1): a trigger fires exactly when its matching metric field is
    present, its own threshold field is present, and
    `metric_value >= threshold` (the comparison is `>=` uniformly for every
    trigger type); an absent metric or threshold means not-triggered. -/
def specMetricMeets (metric threshold : Option ℚ) : Bool :=
  match metric, threshold with
  | some v, some th => decide (v ≥ th)
  | _, _ => false

/-- Specification-side predicate, written from the words of the spec
    (section 4.1): an automatic trigger fires iff it is enabled, its
    type-specific predicate `metric_value >= threshold` holds with both
    fields present, and its type is not `manual` (the `manual` type never
    matches automatically).  This is compared against the source-derived
    evaluator in the refinement theorem for claim C4. -/
def specTriggerFires (t : DuplicationTrigger) (m : DupMetrics) : Bool :=
  t.enabled &&
    (match t.type with
     | .task_count => specMetricMeets m.taskCount t.taskCountThreshold
     | .time_elapsed => specMetricMeets m.elapsedTimeMs t.timeElapsedMs
     | .context_threshold =>
         specMetricMeets m.contextPercentage t.contextPercentage
     | .cost_threshold => specMetricMeets m.currentCost t.costThreshold
     | .document_count =>
         specMetricMeets m.documentCount t.documentCountThreshold
     | .loop_iteration => specMetricMeets m.loopIteration t.loopIteration
     | .manual => false)

/-- Usage statistics of a session (the fields of `UsageStats` used by the
    service and its tests). -/
structure UsageStats where
  totalCostUsd : ℚ
  inputTokens : ℚ
  outputTokens : ℚ
  cacheReadInputTokens : ℚ
  cacheCreationInputTokens : ℚ
  contextWindow : ℚ
deriving DecidableEq, Repr

/-- One conversation tab of a session (the fields written by
    `duplicateSession` when `preserveContext` is set; log entries are
    modelled as strings since the service only ever writes an empty list). -/
structure AITab where
  id : String
  name : Option String
  agentSessionId : Option String
  logs : List String
  starred : Bool
  inputValue : String
  stagedImages : List String
  createdAt : Int
  state : String
deriving DecidableEq, Repr

/-- A worker session (the fields of `Session` read by the duplication
    service). -/
structure Session where
  id : String
  name : String
  toolType : String
  cwd : String
  projectRoot : Option String
  groupId : Option String
  autoRunFolderPath : Option String
  bookmarked : Bool
  aiTabs : List AITab
  contextUsage : Option ℚ
  usageStats : Option UsageStats
deriving DecidableEq, Repr

/-- A visual group for duplicated sessions (`Group`). -/
structure Group where
  id : String
  name : String
  emoji : String
deriving DecidableEq, Repr

/-- One Auto Run document tracked by the batch state (fields as in the
    test fixtures). -/
structure AutoRunDocument where
  id : String
  filename : String
  resetOnCompletion : Bool
  isDuplicate : Bool
deriving DecidableEq, Repr

/-- The batch-run state consulted by `shouldDuplicate` (the fields of
    `BatchRunState` it reads). -/
structure BatchRunState where
  isRunning : Bool
  isStopping : Bool
  completedTasksAcrossAllDocs : ℚ
  accumulatedElapsedMs : ℚ
  documents : List AutoRunDocument
  loopIteration : ℚ
deriving DecidableEq, Repr

/-- State for tracking duplication instances (`DuplicationInstance`). -/
structure DuplicationInstance where
  id : String
  parentSessionId : String
  duplicatedSessionIds : List String
  triggeredBy : DuplicationTriggerType
  createdAt : Int
  groupId : Option String
deriving DecidableEq, Repr

/-- JavaScript `Map.has`. -/
def mapHas {β : Type} (m : List (String × β)) (k : String) : Bool :=
  m.any (fun p => decide (p.1 = k))

/-- JavaScript `Map.get` (returning `none` for a missing key). -/
def mapGet? {β : Type} (m : List (String × β)) (k : String) : Option β :=
  (m.find? (fun p => decide (p.1 = k))).map Prod.snd

/-- JavaScript `Map.set`: replace in place when the key exists, append
    otherwise (insertion order is preserved, as for a JS `Map`). -/
def mapSet {β : Type} (m : List (String × β)) (k : String) (v : β) :
    List (String × β) :=
  if mapHas m k then
    m.map (fun p => if decide (p.1 = k) then (k, v) else p)
  else
    m ++ [(k, v)]

/-- JavaScript `Map.delete`. -/
def mapDelete {β : Type} (m : List (String × β)) (k : String) :
    List (String × β) :=
  m.filter (fun p => decide (p.1 ≠ k))

/-- JavaScript string truthiness of an optional string: `undefined` and the
    empty string are falsy. -/
def jsTruthyStr (o : Option String) : Bool :=
  match o with
  | some s => decide (s ≠ "")
  | none => false

/-- JavaScript `a || b` for an optional string `a` and a string default. -/
def jsOrStr (o : Option String) (d : String) : String :=
  match o with
  | some s => if s = "" then d else s
  | none => d

/-- JavaScript `a || b` for two optional strings. -/
def jsOrStrOpt (o : Option String) (d : Option String) : Option String :=
  match o with
  | some s => if s = "" then d else some s
  | none => d

/-- JavaScript `x || 0` for an optional number (`0` and `undefined` are both
    falsy and both yield `0`). -/
def jsOrZero (o : Option ℚ) : ℚ :=
  match o with
  | some v => if v = 0 then 0 else v
  | none => 0

/-- The state of one `AutoRunDuplicationService` object: its private
    `duplicationInstances` map and its current `config`. -/
structure AutoRunDuplicationServiceState where
  duplicationInstances : List (String × DuplicationInstance)
  config : AutoRunDuplicationConfig
deriving Repr

/-- The service constructor: empty registry, the given configuration. -/
def initialServiceState (config : AutoRunDuplicationConfig) :
    AutoRunDuplicationServiceState :=
  { duplicationInstances := [], config := config }

/-- `updateConfig`. -/
def updateConfig (st : AutoRunDuplicationServiceState)
    (config : AutoRunDuplicationConfig) : AutoRunDuplicationServiceState :=
  { st with config := config }

/-- `getConfig` as a value: `return { ...this.config }`.  On values the
    spread is the identity; the reference-level aliasing of the `triggers`
    array that the spread preserves is modelled separately by `ConfigObj`
    and `TriggersHeap` below. -/
def getConfig (st : AutoRunDuplicationServiceState) : AutoRunDuplicationConfig :=
  st.config

/-- The `const metrics = { ... }` block of `shouldDuplicate`: gather the
    current metrics from the batch state and the session. -/
def gatherMetrics (batchState : BatchRunState) (session : Session) :
    DupMetrics :=
  { taskCount := some batchState.completedTasksAcrossAllDocs
    elapsedTimeMs := some batchState.accumulatedElapsedMs
    contextPercentage := some (jsOrZero session.contextUsage)
    currentCost := some (jsOrZero (session.usageStats.map UsageStats.totalCostUsd))
    documentCount := some ((batchState.documents.length : ℚ))
    loopIteration := some batchState.loopIteration }

/-- `AutoRunDuplicationService.shouldDuplicate`.  Note that the cap branch
    compares `this.duplicationInstances.size` (the number of recorded
    instances) against `maxDuplicates`, after the JavaScript truthiness
    guard `this.config.maxDuplicates &&` (so a cap of `0` disables the
    check), and that its reason interpolates only the maximum. -/
def shouldDuplicate (st : AutoRunDuplicationServiceState) (sessionId : String)
    (batchState : BatchRunState) (session : Session) :
    DuplicationTriggerEvaluation :=
  if mapHas st.duplicationInstances sessionId then
    { shouldDuplicate := false
      triggeredBy := none
      reason := "Session already duplicated"
      metrics := none }
  else
    match st.config.maxDuplicates with
    | some mx =>
      if mx ≠ 0 ∧ st.duplicationInstances.length ≥ mx then
        let mxS := toString mx
        { shouldDuplicate := false
          triggeredBy := none
          reason := s!"Maximum duplicates limit reached ({mxS})"
          metrics := none }
      else
        evaluateDuplicationTriggers st.config (gatherMetrics batchState session)
    | none =>
      evaluateDuplicationTriggers st.config (gatherMetrics batchState session)

/-- Parameters for duplicating a session (`DuplicateSessionParams`). -/
structure DuplicateSessionParams where
  sourceSession : Session
  trigger : DuplicationTrigger
  groupId : Option String
  customPrompt : Option String

/-- The `Partial<Session>` configuration built for each duplicate
    (`newSessionConfig` in `duplicateSession`). -/
structure NewSessionConfig where
  name : String
  toolType : String
  cwd : String
  projectRoot : Option String
  groupId : Option String
  autoRunFolderPath : Option String
  bookmarked : Bool
  aiTabs : Option (List AITab)
deriving DecidableEq, Repr

/-- Result of session duplication (`DuplicateSessionResult`). -/
structure DuplicateSessionResult where
  success : Bool
  duplicatedSessions : List Session
  group : Option Group
  error : Option String

/-- The body of one iteration of the creation loop in `duplicateSession`:
    build the configuration for duplicate number `i + 1`. -/
def buildChildConfig (params : DuplicateSessionParams)
    (targetGroupId : Option String) (tabId : String) (now : Int) (i : Nat) :
    NewSessionConfig :=
  let sourceSession := params.sourceSession
  let trigger := params.trigger
  let duplicateNumber := i + 1
  let srcName := sourceSession.name
  let nS := toString duplicateNumber
  { name := s!"{srcName} (Duplicate {nS})"
    toolType := sourceSession.toolType
    cwd := sourceSession.cwd
    projectRoot := sourceSession.projectRoot
    groupId := targetGroupId
    autoRunFolderPath :=
      if trigger.preserveAutoRunDocs then sourceSession.autoRunFolderPath
      else none
    bookmarked := sourceSession.bookmarked
    aiTabs :=
      if trigger.preserveContext ∧ sourceSession.aiTabs.length > 0 then
        some [{ id := tabId
                name := none
                agentSessionId := none
                logs := []
                starred := false
                inputValue :=
                  jsOrStr params.customPrompt
                    (jsOrStr trigger.customPromptTemplate "")
                stagedImages := []
                createdAt := now
                state := "idle" }]
      else none }

/-- The `for (let i = 0; i < trigger.duplicateCount; i++)` creation loop:
    `k` iterations remain, `i` is the current index; stops at the first
    failed `onCreateSession` call (an awaited rejection propagates to the
    surrounding `try`). -/
def createDuplicates (params : DuplicateSessionParams)
    (targetGroupId : Option String)
    (onCreateSession : NewSessionConfig → Except String Session)
    (genIds : Nat → String) (now : Int) :
    Nat → Nat → Except String (List Session)
  | 0, _ => Except.ok []
  | Nat.succ k, i => do
    let cfg := buildChildConfig params targetGroupId (genIds (i + 1)) now i
    let s ← onCreateSession cfg
    let rest ← createDuplicates params targetGroupId onCreateSession genIds now k (i + 1)
    Except.ok (s :: rest)

/-- Step 1 of `duplicateSession`: create a group for the duplicates when
    `trigger.groupDuplicates` is set and no (truthy) explicit group id was
    supplied; a thrown error propagates to the surrounding `try`. -/
def createGroupStep (params : DuplicateSessionParams)
    (onCreateGroup : String → String → Except String Group) :
    Except String (Option Group) :=
  if params.trigger.groupDuplicates ∧ jsTruthyStr params.groupId = false then
    let srcName := params.sourceSession.name
    let groupName := jsOrStr params.trigger.customGroupName s!"Auto Run - {srcName}"
    let groupEmoji := "🔄"
    match onCreateGroup groupName groupEmoji with
    | Except.error e => Except.error e
    | Except.ok g => Except.ok (some g)
  else Except.ok none

/-- Steps 1-3 of `duplicateSession` (everything inside the `try` up to, but
    not including, the registry commit): optional group creation, then the
    creation loop.  Any failure short-circuits as the `catch` would. -/
def duplicateSessionAttempt (params : DuplicateSessionParams)
    (onCreateSession : NewSessionConfig → Except String Session)
    (onCreateGroup : String → String → Except String Group)
    (genIds : Nat → String) (now : Int) :
    Except String (List Session × Option Group × Option String) :=
  match createGroupStep params onCreateGroup with
  | Except.error e => Except.error e
  | Except.ok group =>
    -- `const targetGroupId = params.groupId || group?.id` is written out at
    -- both of its two use sites
    match createDuplicates params
        (jsOrStrOpt params.groupId (group.map Group.id)) onCreateSession
        genIds now params.trigger.duplicateCount.toNat 0 with
    | Except.error e => Except.error e
    | Except.ok duplicatedSessions =>
      Except.ok (duplicatedSessions, group,
        jsOrStrOpt params.groupId (group.map Group.id))

/-- `AutoRunDuplicationService.duplicateSession`: on success, commit one
    `DuplicationInstance` keyed by the source session id; on any failure
    return `success := false` with the error message and leave the registry
    untouched (the `catch` branch). -/
def duplicateSession (st : AutoRunDuplicationServiceState)
    (params : DuplicateSessionParams)
    (onCreateSession : NewSessionConfig → Except String Session)
    (onCreateGroup : String → String → Except String Group)
    (genIds : Nat → String) (now : Int) :
    AutoRunDuplicationServiceState × DuplicateSessionResult :=
  match duplicateSessionAttempt params onCreateSession onCreateGroup genIds now with
  | Except.error e =>
    (st, { success := false
           duplicatedSessions := []
           group := none
           error := some e })
  | Except.ok (duplicatedSessions, group, targetGroupId) =>
    let inst : DuplicationInstance :=
      { id := genIds 0
        parentSessionId := params.sourceSession.id
        duplicatedSessionIds := duplicatedSessions.map Session.id
        triggeredBy := params.trigger.type
        createdAt := now
        groupId := targetGroupId }
    ({ st with
        duplicationInstances :=
          mapSet st.duplicationInstances params.sourceSession.id inst },
     { success := true
       duplicatedSessions := duplicatedSessions
       group := group
       error := none })

/-- The loop of `distributeTasksAcrossDuplicates`: `k` iterations remain and
    `startIndex` is the current slice start; empty slices are skipped. -/
def distributeLoop (remainingTasks : List String) (tasksPerDuplicate : Nat) :
    Nat → Nat → List (List String)
  | 0, _ => []
  | Nat.succ k, startIndex =>
    let taskSlice := (remainingTasks.drop startIndex).take tasksPerDuplicate
    if taskSlice.length > 0 then
      taskSlice ::
        distributeLoop remainingTasks tasksPerDuplicate k
          (startIndex + tasksPerDuplicate)
    else
      distributeLoop remainingTasks tasksPerDuplicate k
        (startIndex + tasksPerDuplicate)

/-- `AutoRunDuplicationService.distributeTasksAcrossDuplicates`. -/
def distributeTasksAcrossDuplicates (remainingTasks : List String)
    (duplicateCount : Int) : List (List String) :=
  if duplicateCount ≤ 0 ∨ remainingTasks.length = 0 then []
  else
    let n := duplicateCount.toNat
    let tasksPerDuplicate := (remainingTasks.length + n - 1) / n
    distributeLoop remainingTasks tasksPerDuplicate n 0

/-- `getDuplicationInstance`. -/
def getDuplicationInstance (st : AutoRunDuplicationServiceState)
    (sessionId : String) : Option DuplicationInstance :=
  mapGet? st.duplicationInstances sessionId

/-- `getAllInstances`. -/
def getAllInstances (st : AutoRunDuplicationServiceState) :
    List DuplicationInstance :=
  st.duplicationInstances.map Prod.snd

/-- `clearInstance` (exposed to callers as the eligibility reset). -/
def clearInstance (st : AutoRunDuplicationServiceState) (sessionId : String) :
    AutoRunDuplicationServiceState :=
  { st with duplicationInstances := mapDelete st.duplicationInstances sessionId }

/-- `clearAllInstances`. -/
def clearAllInstances (st : AutoRunDuplicationServiceState) :
    AutoRunDuplicationServiceState :=
  { st with duplicationInstances := [] }

/-- `hasDuplicated`. -/
def hasDuplicated (st : AutoRunDuplicationServiceState) (sessionId : String) :
    Bool :=
  mapHas st.duplicationInstances sessionId

/-- Increment of a `Record<string, number>` entry:
    `rec[key] = (rec[key] || 0) + 1`, keyed here by the trigger type. -/
def recordIncr (rec : List (DuplicationTriggerType × Nat))
    (ty : DuplicationTriggerType) : List (DuplicationTriggerType × Nat) :=
  if rec.any (fun p => decide (p.1 = ty)) then
    rec.map (fun p => if decide (p.1 = ty) then (ty, p.2 + 1) else p)
  else
    rec ++ [(ty, 1)]

/-- The result shape of `getMetrics`. -/
structure DuplicationServiceMetrics where
  totalInstances : Nat
  totalDuplicates : Nat
  instancesByTrigger : List (DuplicationTriggerType × Nat)
deriving DecidableEq, Repr

/-- `AutoRunDuplicationService.getMetrics`: total instance count, the sum of
    `duplicatedSessionIds.length` over all instances, and a per-trigger-type
    breakdown. -/
def serviceGetMetrics (st : AutoRunDuplicationServiceState) :
    DuplicationServiceMetrics :=
  let instances := st.duplicationInstances.map Prod.snd
  let acc :=
    instances.foldl
      (fun acc inst =>
        (recordIncr acc.1 inst.triggeredBy,
         acc.2 + inst.duplicatedSessionIds.length))
      ([], 0)
  { totalInstances := instances.length
    totalDuplicates := acc.2
    instancesByTrigger := acc.1 }

/-! ### Reference-level model of configuration objects

JavaScript objects are heap references; `return { ...this.config }` copies
the top-level properties but keeps the very same `triggers` array reference.
To state sharing facts we model the store of trigger arrays explicitly: a
`TriggersHeap` holds the arrays, and a `ConfigObj` holds an index into it
instead of the array itself.  -/

/-- The store of trigger arrays (each JavaScript array is one cell). -/
structure TriggersHeap where
  arrays : List (List DuplicationTrigger)
deriving Repr

/-- A configuration object whose `triggers` property is a heap reference. -/
structure ConfigObj where
  enabled : Bool
  triggersRef : Nat
  maxDuplicates : Option Nat
  autoCreateGroup : Option Bool
  notifyOnDuplication : Option Bool
deriving DecidableEq, Repr

/-- The heap at module load: `DEFAULT_DUPLICATION_CONFIG.triggers` is the
    single allocated array, the empty array at cell 0. -/
def defaultTriggersHeap : TriggersHeap := { arrays := [[]] }

/-- `DEFAULT_DUPLICATION_CONFIG` at the reference level: its `triggers`
    property points at cell 0 of `defaultTriggersHeap`. -/
def defaultConfigObj : ConfigObj :=
  { enabled := false
    triggersRef := 0
    maxDuplicates := some 5
    autoCreateGroup := some true
    notifyOnDuplication := some true }

/-- The object spread `{ ...config }`: a fresh top-level object whose
    properties, including the `triggers` array reference, are copied as-is. -/
def spreadConfigObj (config : ConfigObj) : ConfigObj :=
  { enabled := config.enabled
    triggersRef := config.triggersRef
    maxDuplicates := config.maxDuplicates
    autoCreateGroup := config.autoCreateGroup
    notifyOnDuplication := config.notifyOnDuplication }

/-- `AutoRunDuplicationService.getConfig` at the reference level:
    `return { ...this.config }`. -/
def serviceGetConfigObj (config : ConfigObj) : ConfigObj :=
  spreadConfigObj config

/-- `config.triggers.push(t)`: mutate the array cell in the heap. -/
def heapPushTrigger (h : TriggersHeap) (ref : Nat) (t : DuplicationTrigger) :
    TriggersHeap :=
  { arrays := h.arrays.set ref ((h.arrays.getD ref []) ++ [t]) }

/-- Read `config.triggers` through its reference. -/
def heapReadTriggers (h : TriggersHeap) (ref : Nat) :
    List DuplicationTrigger :=
  h.arrays.getD ref []

/-! ### Operation sequences on one service object -/

/-- One public call on an `AutoRunDuplicationService` object, for stating
    invariants over arbitrary call sequences.  `shouldDup` is read-only;
    `duplicate` carries its callbacks and the id/clock inputs. -/
inductive ServiceOp where
  | shouldDup (sessionId : String) (batchState : BatchRunState) (session : Session)
  | duplicate (params : DuplicateSessionParams)
      (onCreateSession : NewSessionConfig → Except String Session)
      (onCreateGroup : String → String → Except String Group)
      (genIds : Nat → String) (now : Int)
  | clear (sessionId : String)
  | clearAll

/-- Apply one call to the service state. -/
def applyOp (st : AutoRunDuplicationServiceState) : ServiceOp →
    AutoRunDuplicationServiceState
  | .shouldDup _ _ _ => st
  | .duplicate params onCS onCG genIds now =>
      (duplicateSession st params onCS onCG genIds now).1
  | .clear sessionId => clearInstance st sessionId
  | .clearAll => clearAllInstances st

/-- Run a sequence of calls. -/
def runOps (st : AutoRunDuplicationServiceState) (ops : List ServiceOp) :
    AutoRunDuplicationServiceState :=
  ops.foldl applyOp st

/-- The registry invariant maintained by the service: every entry is keyed
    by its own `parentSessionId`, and keys are pairwise distinct. -/
def goodRegistry (m : List (String × DuplicationInstance)) : Prop :=
  (∀ p ∈ m, p.2.parentSessionId = p.1) ∧ (m.map Prod.fst).Nodup

/-! ### Concrete fixtures for example evaluations and witnesses -/

/-- A fixture session, mirroring `createMockSession` in the tests. -/
def mockSession (id : String) : Session :=
  { id := id
    name := "Test Session"
    toolType := "claude"
    cwd := "/tmp/project"
    projectRoot := some "/tmp/project"
    groupId := none
    autoRunFolderPath := some "/tmp/project/docs"
    bookmarked := false
    aiTabs := []
    contextUsage := some 50
    usageStats := some
      { totalCostUsd := 1
        inputTokens := 1000
        outputTokens := 500
        cacheReadInputTokens := 0
        cacheCreationInputTokens := 0
        contextWindow := 200000 }
  }

/-- A fixture batch state, mirroring `createMockBatchState` in the tests. -/
def mockBatchState (completed : ℚ) : BatchRunState :=
  { isRunning := true
    isStopping := false
    completedTasksAcrossAllDocs := completed
    accumulatedElapsedMs := 10000
    documents := [{ id := "1", filename := "test.md",
                    resetOnCompletion := false, isDuplicate := false }]
    loopIteration := 0 }

/-- A task-count trigger with threshold 10 (the fixture of the testable
    property of claim C4). -/
def taskCountTrigger10 : DuplicationTrigger :=
  createDefaultTrigger "trigger-task-10" .task_count

/-- A configuration with the single task-count trigger above. -/
def cfgTask10 : AutoRunDuplicationConfig :=
  { enabled := true
    triggers := [taskCountTrigger10]
    maxDuplicates := none
    autoCreateGroup := none
    notifyOnDuplication := none }

/-- Metrics snapshot with `taskCount = 10` only. -/
def metricsTask (v : ℚ) : DupMetrics :=
  { taskCount := some v
    elapsedTimeMs := none
    contextPercentage := none
    currentCost := none
    documentCount := none
    loopIteration := none }

/-- A recorded instance with the given parent and children (fixture). -/
def mkInstanceFix (id parent : String) (children : List String) :
    DuplicationInstance :=
  { id := id
    parentSessionId := parent
    duplicatedSessionIds := children
    triggeredBy := .task_count
    createdAt := 0
    groupId := none }

/-- A task-count trigger with threshold 1 (the cap-test fixture). -/
def taskCountTrigger1 : DuplicationTrigger :=
  { createDefaultTrigger "trigger-task-1" .task_count with
      taskCountThreshold := some 1 }

/-- Cap-enforcement fixture configuration: `maxDuplicates = 5` and one
    always-firing task-count trigger. -/
def capConfig : AutoRunDuplicationConfig :=
  { enabled := true
    triggers := [taskCountTrigger1]
    maxDuplicates := some 5
    autoCreateGroup := none
    notifyOnDuplication := none }

/-- Cap fixture: two recorded instances whose children sum to 5 (exactly the
    cap) while the instance count is only 2 — the third test of the
    maxDuplicates suite ("should prevent duplication when exactly at
    limit"). -/
def capState : AutoRunDuplicationServiceState :=
  { duplicationInstances :=
      [("session-1", mkInstanceFix "instance-1" "session-1" ["dup-1", "dup-2", "dup-3"]),
       ("session-2", mkInstanceFix "instance-2" "session-2" ["dup-4", "dup-5"])]
    config := capConfig }

/-- Cap fixture with five recorded instances (one child each), for the shape
    of the blocked reason produced by the code. -/
def capState5 : AutoRunDuplicationServiceState :=
  { duplicationInstances :=
      [("session-1", mkInstanceFix "instance-1" "session-1" ["dup-1"]),
       ("session-2", mkInstanceFix "instance-2" "session-2" ["dup-2"]),
       ("session-3", mkInstanceFix "instance-3" "session-3" ["dup-3"]),
       ("session-4", mkInstanceFix "instance-4" "session-4" ["dup-4"]),
       ("session-5", mkInstanceFix "instance-5" "session-5" ["dup-5"])]
    config := capConfig }

/-- A context-threshold trigger whose threshold is 0 (fixture for claim
    C10). -/
def ctxTrigger0 : DuplicationTrigger :=
  { createDefaultTrigger "trigger-ctx-0" .context_threshold with
      contextPercentage := some 0 }

/-- A cost-threshold trigger whose threshold is 0 (fixture for claim C10). -/
def costTrigger0 : DuplicationTrigger :=
  { createDefaultTrigger "trigger-cost-0" .cost_threshold with
      costThreshold := some 0 }

/-- A session carrying neither context usage nor usage statistics. -/
def bareSession (id : String) : Session :=
  { mockSession id with contextUsage := none, usageStats := none }

/-- The boolean cap gate of `shouldDuplicate` (the second early-return
    branch), extracted for stating when it does not interfere. -/
def capGateBlocks (st : AutoRunDuplicationServiceState) : Bool :=
  match st.config.maxDuplicates with
  | some mx => decide (mx ≠ 0) && decide (st.duplicationInstances.length ≥ mx)
  | none => false

/-! ## Lemmas about the trigger evaluator -/

theorem specTriggerFires_eq_body (t : DuplicationTrigger) (m : DupMetrics) :
    specTriggerFires t m = (t.enabled && (evalTriggerBody t m).1) := by
  obtain ⟨tid, ty, en, th1, th2, th3, th4, th5, th6, dc, pc, pad, gd, cgn, dtk, seq, cpt⟩ := t
  obtain ⟨m1, m2, m3, m4, m5, m6⟩ := m
  cases ty
  case task_count => cases th1 <;> cases m1 <;> rfl
  case time_elapsed => cases th2 <;> cases m2 <;> rfl
  case context_threshold => cases th3 <;> cases m3 <;> rfl
  case cost_threshold => cases th4 <;> cases m4 <;> rfl
  case document_count => cases th5 <;> cases m5 <;> rfl
  case loop_iteration => cases th6 <;> cases m6 <;> rfl
  case manual => rfl

theorem runTriggerLoop_eq_find (ts : List DuplicationTrigger) (m : DupMetrics) :
    runTriggerLoop ts m =
      (ts.find? (fun t => specTriggerFires t m)).map
        (fun t => (t, (evalTriggerBody t m).2)) := by
  induction ts with
  | nil => rfl
  | cons t rest ih =>
    cases hen : t.enabled
    · have hs : specTriggerFires t m = false := by
        rw [specTriggerFires_eq_body, hen, Bool.false_and]
      simp [runTriggerLoop, hen, List.find?, hs, ih]
    · cases hb : (evalTriggerBody t m).1
      · have hs : specTriggerFires t m = false := by
          rw [specTriggerFires_eq_body, hen, hb, Bool.and_false]
        simp [runTriggerLoop, hen, hb, List.find?, hs, ih]
      · have hs : specTriggerFires t m = true := by
          rw [specTriggerFires_eq_body, hen, hb, Bool.and_true]
        simp [runTriggerLoop, hen, hb, List.find?, hs]

theorem evaluate_enabled_nonempty (cfg : AutoRunDuplicationConfig)
    (m : DupMetrics) (he : cfg.enabled = true) (hne : cfg.triggers ≠ []) :
    evaluateDuplicationTriggers cfg m =
      (match cfg.triggers.find? (fun t => specTriggerFires t m) with
       | some t =>
         { shouldDuplicate := true, triggeredBy := some t,
           reason := (evalTriggerBody t m).2, metrics := some m }
       | none =>
         { shouldDuplicate := false, triggeredBy := none,
           reason := "No triggers activated", metrics := some m }) := by
  have hlen : ¬ cfg.triggers.length = 0 := by
    simpa [List.length_eq_zero] using hne
  unfold evaluateDuplicationTriggers
  rw [runTriggerLoop_eq_find]
  simp only [he, hlen, if_neg, if_false]
  cases cfg.triggers.find? (fun t => specTriggerFires t m) <;> simp

/-- C4.  For every enabled configuration with a non-empty trigger list, the
    evaluator returns exactly the first trigger (in declared sequence order)
    satisfying the spec-side predicate `specTriggerFires` — which skips
    disabled triggers, uses `metric_value >= threshold` uniformly, treats an
    absent metric or threshold field as not-triggered, and never fires a
    `manual` trigger; when no trigger matches the result is false with
    reason "No triggers activated".  Concretely, a task-count trigger with
    threshold 10 fires at `taskCount = 10` with `triggeredBy.type =
    task_count` and does not fire at `taskCount = 9`. -/
theorem C4_first_matching_trigger_wins :
    (∀ (cfg : AutoRunDuplicationConfig) (m : DupMetrics),
      cfg.enabled = true → cfg.triggers ≠ [] →
      (evaluateDuplicationTriggers cfg m).triggeredBy =
          cfg.triggers.find? (fun t => specTriggerFires t m) ∧
      (evaluateDuplicationTriggers cfg m).shouldDuplicate =
          (cfg.triggers.find? (fun t => specTriggerFires t m)).isSome ∧
      (cfg.triggers.find? (fun t => specTriggerFires t m) = none →
        evaluateDuplicationTriggers cfg m =
          { shouldDuplicate := false, triggeredBy := none,
            reason := "No triggers activated", metrics := some m }) ∧
      (∀ t ∈ cfg.triggers, t.type = .manual →
          (evaluateDuplicationTriggers cfg m).triggeredBy ≠ some t)) ∧
    ((evaluateDuplicationTriggers cfgTask10 (metricsTask 10)).shouldDuplicate
        = true ∧
     (evaluateDuplicationTriggers cfgTask10 (metricsTask 10)).triggeredBy.map
        DuplicationTrigger.type = some .task_count ∧
     (evaluateDuplicationTriggers cfgTask10 (metricsTask 9)).shouldDuplicate
        = false) := by
  constructor
  · intro cfg m he hne
    rw [evaluate_enabled_nonempty cfg m he hne]
    cases hf : cfg.triggers.find? (fun t => specTriggerFires t m) with
    | none =>
      refine ⟨by simp, by simp, fun _ => rfl, ?_⟩
      intro t _ _ hcontra
      simp at hcontra
    | some t0 =>
      refine ⟨by simp, by simp, ?_, ?_⟩
      · intro h
        exact Option.noConfusion h
      intro t _ hman hcontra
      simp only [Option.some.injEq] at hcontra
      subst hcontra
      have hfire : specTriggerFires t0 m = true := by
        have hx := List.find?_some hf
        simpa using hx
      rw [specTriggerFires_eq_body] at hfire
      have hb1 : (evalTriggerBody t0 m).1 = true := by
        cases h1 : t0.enabled <;> cases h2 : (evalTriggerBody t0 m).1 <;>
          simp [h1, h2] at hfire ⊢
      rw [evalTriggerBody, hman] at hb1
      cases hb1
  · refine ⟨by decide, by decide, by decide⟩

/-- Witness for `C4_first_matching_trigger_wins` at the concrete fixture
    configuration. -/
theorem C4_first_matching_trigger_witness :
    (evaluateDuplicationTriggers cfgTask10 (metricsTask 10)).triggeredBy =
      cfgTask10.triggers.find?
        (fun t => specTriggerFires t (metricsTask 10)) :=
  (C4_first_matching_trigger_wins.1 cfgTask10 (metricsTask 10)
    (by decide) (by decide)).1

/-- C5.  With the feature disabled the evaluator always answers false with
    the fixed disabled reason, regardless of triggers and metrics; enabled
    with an empty trigger list it answers false with reason
    "No duplication triggers configured". -/
theorem C5_disabled_and_empty_trigger_results :
    ∀ (cfg : AutoRunDuplicationConfig) (m : DupMetrics),
      (cfg.enabled = false →
        evaluateDuplicationTriggers cfg m =
          { shouldDuplicate := false, triggeredBy := none,
            reason := "Auto Run duplication is disabled", metrics := none }) ∧
      (cfg.enabled = true → cfg.triggers = [] →
        evaluateDuplicationTriggers cfg m =
          { shouldDuplicate := false, triggeredBy := none,
            reason := "No duplication triggers configured",
            metrics := none }) := by
  intro cfg m
  constructor
  · intro h
    simp [evaluateDuplicationTriggers, h]
  · intro h1 h2
    simp [evaluateDuplicationTriggers, h1, h2]

/-- Witness for `C5_disabled_and_empty_trigger_results`: the default
    (disabled) configuration, and an enabled configuration with no
    triggers. -/
theorem C5_disabled_and_empty_witness :
    evaluateDuplicationTriggers DEFAULT_DUPLICATION_CONFIG (metricsTask 10) =
      { shouldDuplicate := false, triggeredBy := none,
        reason := "Auto Run duplication is disabled", metrics := none } ∧
    evaluateDuplicationTriggers
      { enabled := true, triggers := [], maxDuplicates := none,
        autoCreateGroup := none, notifyOnDuplication := none }
      (metricsTask 10) =
      { shouldDuplicate := false, triggeredBy := none,
        reason := "No duplication triggers configured", metrics := none } :=
  ⟨(C5_disabled_and_empty_trigger_results DEFAULT_DUPLICATION_CONFIG
      (metricsTask 10)).1 rfl,
   (C5_disabled_and_empty_trigger_results _ (metricsTask 10)).2 rfl rfl⟩

/-- C7, counterexample.  The claim asserts that the `metrics` field is
    present (echoing the six canonical names) on every branch, including the
    disabled one; on the disabled branch the code omits it. -/
theorem C7_disabled_result_omits_metrics :
    (evaluateDuplicationTriggers
      { enabled := false, triggers := [taskCountTrigger10],
        maxDuplicates := some 5, autoCreateGroup := none,
        notifyOnDuplication := none }
      (metricsTask 10)).metrics = none := by decide

/-- C7, amended.  The evaluation result echoes back exactly the metrics
    snapshot that was passed in — under the six canonical field names of
    `DupMetrics` — precisely on the branches that reach the trigger loop
    (triggered or "no triggers activated"); on the disabled and
    no-triggers-configured branches the `metrics` field is omitted. -/
theorem C7_metrics_echo_exactly_on_loop_branches :
    ∀ (cfg : AutoRunDuplicationConfig) (m : DupMetrics),
      (evaluateDuplicationTriggers cfg m).metrics =
        if cfg.enabled = true ∧ cfg.triggers ≠ [] then some m else none := by
  intro cfg m
  cases he : cfg.enabled
  · simp [evaluateDuplicationTriggers, he]
  · cases ht : cfg.triggers with
    | nil => simp [evaluateDuplicationTriggers, he, ht]
    | cons a l =>
      have hne : cfg.triggers ≠ [] := by rw [ht]; simp
      rw [evaluate_enabled_nonempty cfg m he hne]
      cases hf : cfg.triggers.find? (fun t => specTriggerFires t m) <;>
        simp [he, hne]

/-- C6 (the claim is the spec's intended invariant; the code violates it).
    `getConfig` returns `{ ...this.config }`, an object spread: the two
    reads of the default configuration yield fresh top-level objects that
    still hold the same `triggers` array reference, so pushing a trigger
    through one read makes the list observed through the other read grow
    from length 0 to length 1 — the claim requires it to stay 0. -/
theorem C6_default_config_reads_share_triggers_array :
    (serviceGetConfigObj defaultConfigObj).triggersRef =
        defaultConfigObj.triggersRef ∧
    (heapReadTriggers defaultTriggersHeap
        (serviceGetConfigObj defaultConfigObj).triggersRef).length = 0 ∧
    (heapReadTriggers
        (heapPushTrigger defaultTriggersHeap
          (serviceGetConfigObj defaultConfigObj).triggersRef
          (createDefaultTrigger "trigger-a" .task_count))
        (serviceGetConfigObj defaultConfigObj).triggersRef).length = 1 := by
  refine ⟨rfl, rfl, rfl⟩

/-- C1 (the cap check of the code disagrees with the claim and with the
    repository's own tests).  `capState` records two instances whose
    children sum to 5 under a cap of 5, yet `shouldDuplicate` compares the
    instance count (2) with the cap and lets the trigger fire; and when the
    cap branch is taken (`capState5`) its reason interpolates only the
    maximum, never a current/maximum pair such as "5/5". -/
theorem C1_cap_check_counts_instances_not_children :
    (serviceGetMetrics capState).totalDuplicates = 5 ∧
    capState.config.maxDuplicates = some 5 ∧
    capState.duplicationInstances.length = 2 ∧
    (shouldDuplicate capState "session-3" (mockBatchState 10)
        (mockSession "session-3")).shouldDuplicate = true ∧
    (shouldDuplicate capState5 "session-6" (mockBatchState 10)
        (mockSession "session-6")).reason =
      "Maximum duplicates limit reached (5)" := by
  refine ⟨by decide, by decide, by decide, by decide, by decide⟩

/-! ## Lemmas about the registry map operations -/

theorem mapHas_mapDelete_self {β : Type} (m : List (String × β)) (k : String) :
    mapHas (mapDelete m k) k = false := by
  simp [mapHas, mapDelete, List.any_eq_true, List.mem_filter]

theorem mapGet?_mapDelete_ne {β : Type} (m : List (String × β))
    (k i : String) (h : k ≠ i) :
    mapGet? (mapDelete m i) k = mapGet? m k := by
  have hik : ¬ i = k := fun hh => h hh.symm
  induction m with
  | nil => rfl
  | cons a rest ih =>
    by_cases h1 : a.1 = i
    · have h2 : ¬ a.1 = k := by
        rw [h1]
        exact hik
      simpa [mapDelete, mapGet?, List.filter_cons, List.find?, h1, h2, hik, h]
        using ih
    · by_cases h2 : a.1 = k
      · simp [mapDelete, mapGet?, List.filter_cons, List.find?, h1, h2, hik, h]
      · simpa [mapDelete, mapGet?, List.filter_cons, List.find?, h1, h2, hik, h]
          using ih

/-- C9.  `clearInstance` (the eligibility reset) removes exactly the given
    session id: afterwards `hasDuplicated` is false for it, every other
    session id resolves to the same recorded instance as before, and a
    subsequent `shouldDuplicate` for the cleared id no longer takes the
    "Session already duplicated" branch — whenever the cap gate does not
    block, it re-evaluates the triggers from scratch. -/
theorem C9_clear_instance_resets_eligibility :
    ∀ (st : AutoRunDuplicationServiceState) (id : String)
      (batchState : BatchRunState) (session : Session),
      hasDuplicated (clearInstance st id) id = false ∧
      (∀ k, k ≠ id →
        getDuplicationInstance (clearInstance st id) k =
          getDuplicationInstance st k) ∧
      (capGateBlocks (clearInstance st id) = false →
        shouldDuplicate (clearInstance st id) id batchState session =
          evaluateDuplicationTriggers st.config
            (gatherMetrics batchState session)) := by
  intro st id batchState session
  refine ⟨mapHas_mapDelete_self st.duplicationInstances id, ?_, ?_⟩
  · intro k hk
    exact mapGet?_mapDelete_ne st.duplicationInstances k id hk
  · intro hcap
    have hhas : mapHas (clearInstance st id).duplicationInstances id = false :=
      mapHas_mapDelete_self st.duplicationInstances id
    unfold shouldDuplicate
    rw [hhas]
    simp only [Bool.false_eq_true, if_false]
    have hcfg : (clearInstance st id).config = st.config := rfl
    unfold capGateBlocks at hcap
    cases hmx : st.config.maxDuplicates with
    | none => simp [hcfg, hmx]
    | some mx =>
      rw [hcfg, hmx]
      rw [hcfg, hmx] at hcap
      simp only [Bool.and_eq_false_iff, decide_eq_false_iff_not] at hcap
      have hno : ¬ (mx ≠ 0 ∧
          (clearInstance st id).duplicationInstances.length ≥ mx) := by
        intro ⟨ha, hb⟩
        rcases hcap with hc | hc
        · exact hc ha
        · exact hc hb
      simp [hno]

/-- Witness for `C9_clear_instance_resets_eligibility` on the cap fixture
    state, clearing "session-1". -/
theorem C9_clear_instance_witness :
    hasDuplicated (clearInstance capState "session-1") "session-1" = false ∧
    getDuplicationInstance (clearInstance capState "session-1") "session-2" =
      getDuplicationInstance capState "session-2" ∧
    shouldDuplicate (clearInstance capState "session-1") "session-1"
        (mockBatchState 10) (mockSession "session-1") =
      evaluateDuplicationTriggers capState.config
        (gatherMetrics (mockBatchState 10) (mockSession "session-1")) :=
  ⟨(C9_clear_instance_resets_eligibility capState "session-1"
      (mockBatchState 10) (mockSession "session-1")).1,
   (C9_clear_instance_resets_eligibility capState "session-1"
      (mockBatchState 10) (mockSession "session-1")).2.1 "session-2"
      (by decide),
   (C9_clear_instance_resets_eligibility capState "session-1"
      (mockBatchState 10) (mockSession "session-1")).2.2 (by decide)⟩

/-- C10.  The metrics snapshot built by `shouldDuplicate` is fully
    populated: all six fields are present, a session with no recorded
    context usage contributes `contextPercentage = 0`, a session with no
    usage statistics contributes `cost = 0`, and consequently a
    context-threshold or cost-threshold trigger with threshold 0 fires even
    for a session carrying no such data. -/
theorem C10_service_metrics_fully_populated :
    (∀ (b : BatchRunState) (s : Session),
      (gatherMetrics b s).taskCount.isSome = true ∧
      (gatherMetrics b s).elapsedTimeMs.isSome = true ∧
      (gatherMetrics b s).contextPercentage.isSome = true ∧
      (gatherMetrics b s).currentCost.isSome = true ∧
      (gatherMetrics b s).documentCount.isSome = true ∧
      (gatherMetrics b s).loopIteration.isSome = true) ∧
    (∀ (b : BatchRunState) (s : Session), s.contextUsage = none →
      (gatherMetrics b s).contextPercentage = some 0) ∧
    (∀ (b : BatchRunState) (s : Session), s.usageStats = none →
      (gatherMetrics b s).currentCost = some 0) ∧
    (∀ (sid : String) (b : BatchRunState) (s : Session),
      s.contextUsage = none →
      shouldDuplicate
          (initialServiceState
            { enabled := true, triggers := [ctxTrigger0],
              maxDuplicates := none, autoCreateGroup := none,
              notifyOnDuplication := none }) sid b s =
        { shouldDuplicate := true, triggeredBy := some ctxTrigger0,
          reason := "Context usage (0%) reached threshold (0%)",
          metrics := some (gatherMetrics b s) }) ∧
    (∀ (sid : String) (b : BatchRunState) (s : Session),
      s.usageStats = none →
      shouldDuplicate
          (initialServiceState
            { enabled := true, triggers := [costTrigger0],
              maxDuplicates := none, autoCreateGroup := none,
              notifyOnDuplication := none }) sid b s =
        { shouldDuplicate := true, triggeredBy := some costTrigger0,
          reason := "Cost ($0.0000) reached threshold ($0.0000)",
          metrics := some (gatherMetrics b s) }) := by
  refine ⟨?_, ?_, ?_, ?_, ?_⟩
  · intro b s
    exact ⟨rfl, rfl, rfl, rfl, rfl, rfl⟩
  · intro b s h
    simp [gatherMetrics, h, jsOrZero]
  · intro b s h
    simp [gatherMetrics, h, jsOrZero]
  · intro sid b s h
    have hm : (gatherMetrics b s).contextPercentage = some 0 := by
      simp [gatherMetrics, h, jsOrZero]
    unfold shouldDuplicate
    simp only [initialServiceState]
    rw [show mapHas ([] : List (String × DuplicationInstance)) sid = false
          from rfl]
    simp only [Bool.false_eq_true, if_false]
    unfold evaluateDuplicationTriggers runTriggerLoop
    rw [show ctxTrigger0.enabled = true from rfl]
    simp only [Bool.true_eq_false, if_false]
    unfold evalTriggerBody
    rw [show ctxTrigger0.type = .context_threshold from rfl]
    rw [show ctxTrigger0.contextPercentage = some 0 from rfl, hm]
    simp
    rfl
  · intro sid b s h
    have hm : (gatherMetrics b s).currentCost = some 0 := by
      simp [gatherMetrics, h, jsOrZero]
    unfold shouldDuplicate
    simp only [initialServiceState]
    rw [show mapHas ([] : List (String × DuplicationInstance)) sid = false
          from rfl]
    simp only [Bool.false_eq_true, if_false]
    unfold evaluateDuplicationTriggers runTriggerLoop
    rw [show costTrigger0.enabled = true from rfl]
    simp only [Bool.true_eq_false, if_false]
    unfold evalTriggerBody
    rw [show costTrigger0.type = .cost_threshold from rfl]
    rw [show costTrigger0.costThreshold = some 0 from rfl, hm]
    simp
    rfl

/-- Witness for `C10_service_metrics_fully_populated` at a session with no
    context usage and no usage statistics. -/
theorem C10_zero_threshold_witness :
    (shouldDuplicate
        (initialServiceState
          { enabled := true, triggers := [ctxTrigger0],
            maxDuplicates := none, autoCreateGroup := none,
            notifyOnDuplication := none }) "session-x" (mockBatchState 5)
        (bareSession "session-x")).shouldDuplicate = true := by
  rw [(C10_service_metrics_fully_populated.2.2.2.1 "session-x"
        (mockBatchState 5) (bareSession "session-x") rfl)]

/-! ## Lemmas about the task distributor -/

theorem distributeLoop_zero_chunk (tasks : List String) (k startIndex : Nat) :
    distributeLoop tasks 0 k startIndex = [] := by
  induction k generalizing startIndex with
  | zero => rfl
  | succ k ih => simp [distributeLoop, ih]

theorem distributeLoop_of_drop_nil (tasks : List String) (c k startIndex : Nat)
    (h : tasks.drop startIndex = []) :
    distributeLoop tasks c k startIndex = [] := by
  induction k generalizing startIndex with
  | zero => rfl
  | succ k ih =>
    have hlen : tasks.length ≤ startIndex := by
      rw [← List.drop_eq_nil_iff_le]
      exact h
    have h2 : tasks.drop (startIndex + c) = [] := by
      rw [List.drop_eq_nil_iff_le]
      omega
    simp [distributeLoop, h, ih _ h2]

theorem distributeLoop_join (tasks : List String) (c k startIndex : Nat) :
    (distributeLoop tasks c k startIndex).join =
      (tasks.drop startIndex).take (c * k) := by
  induction k generalizing startIndex with
  | zero => simp [distributeLoop]
  | succ k ih =>
    by_cases hs : ((tasks.drop startIndex).take c).length > 0
    · have hdrop : tasks.drop (startIndex + c) = (tasks.drop startIndex).drop c := by
        rw [List.drop_drop, Nat.add_comm]
      simp only [distributeLoop, if_pos hs, List.join_cons, ih, hdrop]
      rw [show c * (k + 1) = c + c * k by ring, List.take_add]
    · have hnil : (tasks.drop startIndex).take c = [] := by
        cases hx : (tasks.drop startIndex).take c with
        | nil => rfl
        | cons y ys => rw [hx] at hs; simp at hs
      rcases List.take_eq_nil_iff.1 hnil with hc | hd
      · subst hc
        simp [distributeLoop_zero_chunk]
      · have h2 : tasks.drop (startIndex + c) = [] := by
          have hlen : tasks.length ≤ startIndex := by
            rw [← List.drop_eq_nil_iff_le]
            exact hd
          rw [List.drop_eq_nil_iff_le]
          omega
        simp [distributeLoop, hnil, distributeLoop_of_drop_nil _ _ _ _ h2, hd]

theorem distributeLoop_length_le (tasks : List String) (c k startIndex : Nat) :
    (distributeLoop tasks c k startIndex).length ≤ k := by
  induction k generalizing startIndex with
  | zero => simp [distributeLoop]
  | succ k ih =>
    by_cases hs : ((tasks.drop startIndex).take c).length > 0
    · simp only [distributeLoop, if_pos hs, List.length_cons]
      exact Nat.succ_le_succ (ih _)
    · simp only [distributeLoop, if_neg hs]
      exact Nat.le_succ_of_le (ih _)

theorem distributeLoop_chunk_bounds (tasks : List String)
    (c k startIndex : Nat) :
    ∀ l ∈ distributeLoop tasks c k startIndex, l ≠ [] ∧ l.length ≤ c := by
  induction k generalizing startIndex with
  | zero => simp [distributeLoop]
  | succ k ih =>
    by_cases hs : ((tasks.drop startIndex).take c).length > 0
    · simp only [distributeLoop, if_pos hs, List.mem_cons]
      intro l hl
      rcases hl with rfl | hl
      · refine ⟨?_, List.length_take_le c _⟩
        intro hnil
        rw [hnil] at hs
        simp at hs
      · exact ih _ l hl
    · simp only [distributeLoop, if_neg hs]
      exact ih _

theorem distributeLoop_dropLast_full (tasks : List String)
    (c k startIndex : Nat) :
    ∀ l ∈ (distributeLoop tasks c k startIndex).dropLast, l.length = c := by
  induction k generalizing startIndex with
  | zero => simp [distributeLoop]
  | succ k ih =>
    by_cases hs : ((tasks.drop startIndex).take c).length > 0
    · simp only [distributeLoop, if_pos hs]
      cases hrest : distributeLoop tasks c k (startIndex + c) with
      | nil => simp
      | cons b bs =>
        have hne : tasks.drop (startIndex + c) ≠ [] := by
          intro hnil
          rw [distributeLoop_of_drop_nil _ _ _ _ hnil] at hrest
          exact List.noConfusion hrest
        have hlen : startIndex + c < tasks.length := by
          by_contra hcon
          exact hne (List.drop_eq_nil_iff_le.2 (by omega))
        have hslice : ((tasks.drop startIndex).take c).length = c := by
          rw [List.length_take, List.length_drop]
          omega
        intro l hl
        rw [List.dropLast_cons_of_ne_nil (by simp)] at hl
        rcases List.mem_cons.1 hl with rfl | hl2
        · exact hslice
        · have := ih (startIndex + c)
          rw [hrest] at this
          exact this l hl2
    · simp only [distributeLoop, if_neg hs]
      exact ih _

/-- C8.  `distributeTasksAcrossDuplicates` returns the empty sequence when
    the duplicate count is non-positive or the task list is empty; otherwise
    it deterministically produces at most `duplicateCount` contiguous,
    order-preserving, non-empty slices of size at most
    `ceil(len / duplicateCount)` whose concatenation is the original list,
    with every slice but the last of exactly that size (empty trailing
    buckets are omitted); distributing seven tasks over three duplicates
    yields `[[t1,t2,t3],[t4,t5,t6],[t7]]`. -/
theorem C8_distribute_tasks_contiguous_chunks :
    (∀ (tasks : List String) (count : Int), count ≤ 0 →
      distributeTasksAcrossDuplicates tasks count = []) ∧
    (∀ count : Int, distributeTasksAcrossDuplicates [] count = []) ∧
    (∀ (tasks : List String) (count : Int), 0 < count → tasks ≠ [] →
      (distributeTasksAcrossDuplicates tasks count).join = tasks ∧
      (distributeTasksAcrossDuplicates tasks count).length ≤ count.toNat ∧
      (∀ l ∈ distributeTasksAcrossDuplicates tasks count,
        l ≠ [] ∧
        l.length ≤ (tasks.length + count.toNat - 1) / count.toNat) ∧
      (∀ l ∈ (distributeTasksAcrossDuplicates tasks count).dropLast,
        l.length = (tasks.length + count.toNat - 1) / count.toNat)) ∧
    distributeTasksAcrossDuplicates
        ["t1", "t2", "t3", "t4", "t5", "t6", "t7"] 3 =
      [["t1", "t2", "t3"], ["t4", "t5", "t6"], ["t7"]] := by
  have hmain : ∀ (tasks : List String) (count : Int), 0 < count → tasks ≠ [] →
      distributeTasksAcrossDuplicates tasks count =
        distributeLoop tasks ((tasks.length + count.toNat - 1) / count.toNat)
          count.toNat 0 := by
    intro tasks count hc hne
    have h1 : ¬ (count ≤ 0 ∨ tasks.length = 0) := by
      push_neg
      exact ⟨by omega, by simpa [List.length_eq_zero] using hne⟩
    unfold distributeTasksAcrossDuplicates
    rw [if_neg h1]
  refine ⟨?_, ?_, ?_, by decide⟩
  · intro tasks count hc
    simp [distributeTasksAcrossDuplicates, hc]
  · intro count
    simp [distributeTasksAcrossDuplicates]
  · intro tasks count hc hne
    have hn : 0 < count.toNat := by omega
    have hlen : 0 < tasks.length := by
      cases tasks with
      | nil => exact absurd rfl hne
      | cons a l => simp
    rw [hmain tasks count hc hne]
    refine ⟨?_, distributeLoop_length_le _ _ _ _,
      distributeLoop_chunk_bounds _ _ _ _,
      distributeLoop_dropLast_full _ _ _ _⟩
    rw [distributeLoop_join, List.drop_zero]
    have hcov : tasks.length ≤
        ((tasks.length + count.toNat - 1) / count.toNat) * count.toNat := by
      have hdm := Nat.div_add_mod (tasks.length + count.toNat - 1) count.toNat
      have hmlt : (tasks.length + count.toNat - 1) % count.toNat < count.toNat :=
        Nat.mod_lt _ hn
      rw [Nat.mul_comm]
      generalize hq :
        count.toNat * ((tasks.length + count.toNat - 1) / count.toNat) = N at hdm
      omega
    exact List.take_of_length_le hcov

/-- Witness for `C8_distribute_tasks_contiguous_chunks` at seven tasks over
    three duplicates. -/
theorem C8_distribute_witness :
    (distributeTasksAcrossDuplicates
      ["t1", "t2", "t3", "t4", "t5", "t6", "t7"] 3).join =
      ["t1", "t2", "t3", "t4", "t5", "t6", "t7"] :=
  (C8_distribute_tasks_contiguous_chunks.2.2.1
    ["t1", "t2", "t3", "t4", "t5", "t6", "t7"] 3
    (by decide) (by decide)).1

/-! ## The registry invariant under operation sequences -/

theorem goodRegistry_nil : goodRegistry [] := ⟨by simp, List.nodup_nil⟩

theorem goodRegistry_mapDelete (m : List (String × DuplicationInstance))
    (i : String) (h : goodRegistry m) : goodRegistry (mapDelete m i) := by
  obtain ⟨h1, h2⟩ := h
  constructor
  · intro p hp
    exact h1 p (List.mem_of_mem_filter hp)
  · exact h2.sublist ((List.filter_sublist m).map Prod.fst)

theorem goodRegistry_mapSet (m : List (String × DuplicationInstance))
    (k : String) (v : DuplicationInstance) (hv : v.parentSessionId = k)
    (h : goodRegistry m) : goodRegistry (mapSet m k v) := by
  obtain ⟨h1, h2⟩ := h
  unfold mapSet
  cases hk : mapHas m k
  · rw [if_neg (by simp [hk])]
    constructor
    · intro p hp
      rcases List.mem_append.1 hp with hpm | hps
      · exact h1 p hpm
      · have hp2 : p = (k, v) := by simpa using hps
        rw [hp2]
        exact hv
    · rw [List.map_append]
      refine List.Nodup.append h2 (by simp) ?_
      intro x hx hx2
      simp only [List.map_cons, List.map_nil, List.mem_singleton] at hx2
      rw [List.mem_map] at hx
      obtain ⟨p, hp, hpk⟩ := hx
      have hcontra : mapHas m k = true := by
        unfold mapHas
        rw [List.any_eq_true]
        refine ⟨p, hp, ?_⟩
        simp [hpk, hx2]
      rw [hk] at hcontra
      cases hcontra
  · rw [if_pos (by simp [hk])]
    constructor
    · intro p hp
      rw [List.mem_map] at hp
      obtain ⟨q, hq, rfl⟩ := hp
      by_cases hq1 : q.1 = k
      · simp [hq1, hv]
      · simp only [hq1, decide_eq_true_eq, if_neg hq1]
        exact h1 q hq
    · have hkeys :
          (m.map (fun p => if decide (p.1 = k) then (k, v) else p)).map
            Prod.fst = m.map Prod.fst := by
        rw [List.map_map]
        apply List.map_congr_left
        intro p _
        by_cases hq1 : p.1 = k
        · simp [hq1]
        · simp [hq1]
      rw [hkeys]
      exact h2

theorem goodRegistry_applyOp (st : AutoRunDuplicationServiceState)
    (op : ServiceOp) (h : goodRegistry st.duplicationInstances) :
    goodRegistry (applyOp st op).duplicationInstances := by
  cases op with
  | shouldDup sid b s => exact h
  | clear sid => exact goodRegistry_mapDelete _ _ h
  | clearAll => exact goodRegistry_nil
  | duplicate params onCS onCG genIds now =>
    show goodRegistry
      (duplicateSession st params onCS onCG genIds now).1.duplicationInstances
    unfold duplicateSession
    cases ha : duplicateSessionAttempt params onCS onCG genIds now with
    | error e => exact h
    | ok triple =>
      obtain ⟨children, group, tgid⟩ := triple
      exact goodRegistry_mapSet _ _ _ rfl h

theorem goodRegistry_runOps (ops : List ServiceOp) :
    ∀ st : AutoRunDuplicationServiceState,
      goodRegistry st.duplicationInstances →
      goodRegistry (runOps st ops).duplicationInstances := by
  induction ops with
  | nil => intro st h; exact h
  | cons op rest ih =>
    intro st h
    exact ih _ (goodRegistry_applyOp st op h)

/-- C2.  After any sequence of `shouldDuplicate`, `duplicateSession`,
    `clearInstance` and `clearAllInstances` calls starting from a freshly
    constructed service, the parent session ids of the recorded instances
    are pairwise distinct — the registry holds at most one
    `DuplicationInstance` per `parentSessionId`. -/
theorem C2_at_most_one_instance_per_parent :
    ∀ (config : AutoRunDuplicationConfig) (ops : List ServiceOp),
      ((runOps (initialServiceState config) ops).duplicationInstances.map
        (fun p => p.2.parentSessionId)).Nodup := by
  intro config ops
  obtain ⟨h1, h2⟩ :=
    goodRegistry_runOps ops (initialServiceState config)
      ⟨by simp [initialServiceState], by simp [initialServiceState]⟩
  have heq :
      ((runOps (initialServiceState config) ops).duplicationInstances.map
        (fun p => p.2.parentSessionId)) =
      ((runOps (initialServiceState config) ops).duplicationInstances.map
        Prod.fst) :=
    List.map_congr_left h1
  rw [heq]
  exact h2

/-! ## All-or-nothing behaviour of duplicateSession -/

theorem except_bind_ok {α β : Type} (x : Except String α)
    (f : α → Except String β) (b : β) (h : (x >>= f) = Except.ok b) :
    ∃ a, x = Except.ok a ∧ f a = Except.ok b := by
  cases x with
  | error e => simp [Bind.bind, Except.bind] at h
  | ok a =>
    refine ⟨a, rfl, ?_⟩
    simpa [Bind.bind, Except.bind] using h

theorem createDuplicates_ok_length (params : DuplicateSessionParams)
    (tg : Option String) (onCS : NewSessionConfig → Except String Session)
    (genIds : Nat → String) (now : Int) :
    ∀ (k i : Nat) (l : List Session),
      createDuplicates params tg onCS genIds now k i = Except.ok l →
      l.length = k := by
  intro k
  induction k with
  | zero =>
    intro i l h
    simp only [createDuplicates] at h
    injection h with h1
    rw [← h1]
    rfl
  | succ k ih =>
    intro i l h
    simp only [createDuplicates] at h
    obtain ⟨s, hs, h2⟩ := except_bind_ok _ _ _ h
    obtain ⟨rest, hrest, h3⟩ := except_bind_ok _ _ _ h2
    injection h3 with h4
    rw [← h4]
    simp [ih (i + 1) rest hrest]

theorem duplicateSessionAttempt_ok_length (params : DuplicateSessionParams)
    (onCS : NewSessionConfig → Except String Session)
    (onCG : String → String → Except String Group)
    (genIds : Nat → String) (now : Int) (children : List Session)
    (group : Option Group) (tgid : Option String)
    (h : duplicateSessionAttempt params onCS onCG genIds now =
          Except.ok (children, group, tgid)) :
    children.length = params.trigger.duplicateCount.toNat := by
  unfold duplicateSessionAttempt at h
  cases hg : createGroupStep params onCG with
  | error e =>
    rw [hg] at h
    exact Except.noConfusion h
  | ok group1 =>
    rw [hg] at h
    dsimp only [] at h
    cases hcd : createDuplicates params
        (jsOrStrOpt params.groupId (group1.map Group.id)) onCS genIds now
        params.trigger.duplicateCount.toNat 0 with
    | error e =>
      rw [hcd] at h
      exact Except.noConfusion h
    | ok ds =>
      rw [hcd] at h
      injection h with h4
      have hch : ds = children := congrArg Prod.fst h4
      rw [← hch]
      exact createDuplicates_ok_length params _ onCS genIds now _ 0 ds hcd

/-- C3.  `duplicateSession` never lets a failure escape: whenever any step
    fails the result is `success := false` with an error message, no
    duplicated sessions, and the service state (in particular the registry)
    is left completely unchanged; on success exactly one instance is
    committed, keyed by the source session id, only after all
    `duplicateCount` requested children were created, and its
    `duplicatedSessionIds` are exactly the ids of the sessions the creation
    callback returned. -/
theorem C3_duplicate_session_all_or_nothing :
    ∀ (st : AutoRunDuplicationServiceState) (params : DuplicateSessionParams)
      (onCS : NewSessionConfig → Except String Session)
      (onCG : String → String → Except String Group)
      (genIds : Nat → String) (now : Int)
      (st2 : AutoRunDuplicationServiceState) (r : DuplicateSessionResult),
      duplicateSession st params onCS onCG genIds now = (st2, r) →
      (r.success = false →
        st2 = st ∧ r.duplicatedSessions = [] ∧ r.error.isSome = true) ∧
      (r.success = true →
        r.error = none ∧
        r.duplicatedSessions.length = params.trigger.duplicateCount.toNat ∧
        ∃ inst : DuplicationInstance,
          st2.duplicationInstances =
            mapSet st.duplicationInstances params.sourceSession.id inst ∧
          inst.parentSessionId = params.sourceSession.id ∧
          inst.duplicatedSessionIds = r.duplicatedSessions.map Session.id) := by
  intro st params onCS onCG genIds now st2 r h
  unfold duplicateSession at h
  cases ha : duplicateSessionAttempt params onCS onCG genIds now with
  | error e =>
    rw [ha] at h
    injection h with h1 h2
    subst h1
    subst h2
    constructor
    · intro _
      exact ⟨rfl, rfl, rfl⟩
    · intro hs
      simp at hs
  | ok triple =>
    obtain ⟨children, group, tgid⟩ := triple
    rw [ha] at h
    injection h with h1 h2
    subst h1
    subst h2
    constructor
    · intro hs
      simp at hs
    · intro _
      exact ⟨rfl,
        duplicateSessionAttempt_ok_length params onCS onCG genIds now
          children group tgid ha,
        ⟨_, rfl, rfl, rfl⟩⟩

/-- Witness for `C3_duplicate_session_all_or_nothing`: a group-creation
    callback that always fails leaves the cap fixture state unchanged. -/
theorem C3_all_or_nothing_witness :
    (duplicateSession capState
      { sourceSession := mockSession "session-3",
        trigger := taskCountTrigger1, groupId := none, customPrompt := none }
      (fun _ => Except.ok (mockSession "dup-x"))
      (fun _ _ => Except.error "Failed to create group")
      (fun _ => "generated-id") 0).1 = capState :=
  ((C3_duplicate_session_all_or_nothing capState
      { sourceSession := mockSession "session-3",
        trigger := taskCountTrigger1, groupId := none, customPrompt := none }
      (fun _ => Except.ok (mockSession "dup-x"))
      (fun _ _ => Except.error "Failed to create group")
      (fun _ => "generated-id") 0 _ _ rfl).1 rfl).1

end Maestro
